import Mathlib

/-!
Verification of `scripts/bmc_techsupport.py`.

The script is a two-mode CLI dispatcher around an external platform BMC
object.  We shallowly embed it: the external calls (`trigger_bmc_debug_log_dump`,
`get_bmc_debug_log_dump`, platform-object construction) are parameters of the
embedded functions, given as explicit outcomes (a well-formed return value or a
raised exception), and the observable effects (syslog lines, standard output,
invocations of the external fetch operation, propagated exceptions, process
exit code) are returned as data.
-/

namespace BmcTechsupport

/-- Syslog severity used by the script (`syslog.LOG_INFO` / `syslog.LOG_ERR`). -/
inductive Sev where
  | info : Sev
  | err : Sev
deriving DecidableEq, Repr

/-- One syslog line: severity and message. -/
structure LogEntry where
  sev : Sev
  msg : String
deriving DecidableEq, Repr

/-- Python `os.path.basename` for POSIX paths: `p[p.rfind(sep) + 1:]`,
i.e. the suffix after the last `/`. -/
def basename (p : String) : String :=
  ((p.toList.reverse.takeWhile (fun c => c ≠ '/')).reverse).asString

/-- Python `os.path.dirname` for POSIX paths: the prefix up to and including
the last `/`; if that head is nonempty and not made only of separators, its
trailing separators are stripped. -/
def dirname (p : String) : String :=
  let head := (p.toList.reverse.dropWhile (fun c => c ≠ '/')).reverse
  if head ≠ [] ∧ head.any (fun c => c ≠ '/') then
    ((head.reverse.dropWhile (fun c => c = '/')).reverse).asString
  else
    head.asString

/-- `parse_file_path(filepath)`: returns the pair
`(os.path.dirname(filepath), os.path.basename(filepath))`. -/
def parse_file_path (filepath : String) : String × String :=
  (dirname filepath, basename filepath)

namespace BMCDebugDumpExtractor

/-- The class attribute `INVALID_TASK_ID = '-1'`. -/
def INVALID_TASK_ID : String := "-1"

end BMCDebugDumpExtractor

/-- Outcome of the external call `self.bmc.trigger_bmc_debug_log_dump()`:
either a well-formed return `(ret, (task_id, err_msg))`, or a raised
exception with message `e`. -/
inductive TriggerOutcome where
  | ret : Int → String → String → TriggerOutcome
  | raise : String → TriggerOutcome
deriving DecidableEq, Repr

/-- Effects of one run of `trigger_debug_dump`: the syslog lines emitted and
the lines printed to standard output, in order. -/
structure TriggerEffects where
  logs : List LogEntry
  stdout : List String
deriving DecidableEq, Repr

/-- `BMCDebugDumpExtractor.trigger_debug_dump`, embedded.  `task_id` starts as
the sentinel; the tuple unpacking of a well-formed return assigns it before
the `ret != 0` test; every raised exception is caught by `except Exception`;
the `finally` block prints the current `task_id`. -/
def trigger_debug_dump (call : TriggerOutcome) : TriggerEffects :=
  let pre : List LogEntry :=
    [⟨Sev.info, "Triggering BMC debug log dump Redfish task"⟩]
  match call with
  | TriggerOutcome.raise e =>
      ⟨pre ++ [⟨Sev.err, "Failed to trigger BMC debug log dump - " ++ e⟩],
       [BMCDebugDumpExtractor.INVALID_TASK_ID]⟩
  | TriggerOutcome.ret r task_id err_msg =>
      if r ≠ 0 then
        ⟨pre ++ [⟨Sev.err, "Fail to trigger BMC debug log dump: " ++ err_msg⟩,
                 ⟨Sev.err, "Failed to trigger BMC debug log dump - " ++ err_msg⟩],
         [task_id]⟩
      else
        ⟨pre ++ [⟨Sev.info,
                  "Successfully triggered  BMC debug log dump - Task-id: " ++ task_id⟩],
         [task_id]⟩

/-- Outcome of the external call `self.bmc.get_bmc_debug_log_dump(...)`:
either a well-formed return `(ret, err_msg)`, or a raised exception. -/
inductive FetchOutcome where
  | ret : Int → String → FetchOutcome
  | raise : String → FetchOutcome
deriving DecidableEq, Repr

/-- One recorded invocation of the external fetch operation, with the keyword
arguments the script passes: `task_id=`, `filename=`, `path=`, `timeout=`. -/
structure FetchCall where
  task_id : Option String
  filename : String
  path : String
  timeout : Nat
deriving DecidableEq, Repr

/-- Effects of one run of `extract_debug_dump_file`: syslog lines, standard
output, the invocations of the external fetch operation, and the exception
propagated to the caller if any. -/
structure CollectEffects where
  logs : List LogEntry
  stdout : List String
  fetchCalls : List FetchCall
  propagatedExn : Option String
deriving DecidableEq, Repr

/-- Message of the `TypeError` raised by `os.path.dirname(None)` when the
filepath argument is absent. -/
def typeErrorNone : String := "expected str, bytes or os.PathLike object, not NoneType"

/-- Body of the `try` block of `extract_debug_dump_file`: returns the raised
exception message if any, together with the syslog lines emitted and the
fetch invocations made before control left the block.  `task_id` is
`Option String` because the CLI passes `None` when `-t` is absent; the
comparison `task_id == INVALID_TASK_ID` is false for `None`. -/
def extract_body (task_id : Option String) (filepath : Option String)
    (fetch : FetchOutcome) (duration : Nat) :
    Option String × List LogEntry × List FetchCall :=
  match filepath with
  | none => (some typeErrorNone, [], [])
  | some fp =>
    let (log_dump_dir, log_dump_filename) := parse_file_path fp
    if log_dump_dir = "" ∨ log_dump_filename = "" then
      (some ("Invalid given filepath: " ++ fp), [], [])
    else if task_id = some BMCDebugDumpExtractor.INVALID_TASK_ID then
      (some "Invalid Task-ID", [], [])
    else
      let collecting : LogEntry := ⟨Sev.info, "Collecting BMC debug log dump"⟩
      let theCall : FetchCall := ⟨task_id, log_dump_filename, log_dump_dir, 360⟩
      match fetch with
      | FetchOutcome.raise e => (some e, [collecting], [theCall])
      | FetchOutcome.ret r err_msg =>
        if r ≠ 0 then
          (some err_msg,
           [collecting,
            ⟨Sev.err, "BMC debug log dump does not finish within 360 seconds: "
                        ++ err_msg⟩],
           [theCall])
        else
          (none,
           [collecting,
            ⟨Sev.info, "BMC debug log dump takes " ++ toString duration
                        ++ " seconds to complete"⟩]
             ++ (if duration > 120 then
                   [⟨Sev.err, "BMC debug log dump exceeds 120 seconds"⟩]
                 else [])
             ++ [⟨Sev.info, "Finished successfully collecting BMC debug log dump."⟩],
           [theCall])

/-- `BMCDebugDumpExtractor.extract_debug_dump_file`, embedded: runs the `try`
body; `except Exception` turns every raised exception into one error syslog
line and a normal return, so no exception propagates. -/
def extract_debug_dump_file (task_id : Option String) (filepath : Option String)
    (fetch : FetchOutcome) (duration : Nat) : CollectEffects :=
  match extract_body task_id filepath fetch duration with
  | (some e, logs, calls) =>
      ⟨logs ++ [⟨Sev.err, "Failed to collect BMC debug log dump - " ++ e⟩],
       [], calls, none⟩
  | (none, logs, calls) => ⟨logs, [], calls, none⟩

/-- Outcome of constructing `BMCDebugDumpExtractor()` — the chained external
calls `Platform()`, `get_chassis()`, `get_bmc()` — either success or a raised
exception.  The constructor call in `main` is not inside any `try` block. -/
inductive ConstructOutcome where
  | ok : ConstructOutcome
  | raise : String → ConstructOutcome
deriving DecidableEq, Repr

/-- One process run: the exit code and the observable effects. -/
structure ProcessRun where
  exitCode : Nat
  stdout : List String
  logs : List LogEntry
  fetchCalls : List FetchCall
deriving DecidableEq, Repr

/-- `main(mode, task_id, filepath)` together with the interpreter's exit
behaviour: an exception raised during `BMCDebugDumpExtractor()` propagates
uncaught out of `main`, so the interpreter terminates with exit code 1;
otherwise `main` dispatches on the mode and returns normally, exit code 0. -/
def script_process (construct : ConstructOutcome) (mode : String)
    (task_id : Option String) (filepath : Option String)
    (trig : TriggerOutcome) (fetch : FetchOutcome) (duration : Nat) :
    ProcessRun :=
  match construct with
  | ConstructOutcome.raise _e => ⟨1, [], [], []⟩
  | ConstructOutcome.ok =>
    if mode = "t" then
      let eff := trigger_debug_dump trig
      ⟨0, eff.stdout, eff.logs, []⟩
    else if mode = "c" then
      let eff := extract_debug_dump_file task_id filepath fetch duration
      ⟨0, eff.stdout, eff.logs, eff.fetchCalls⟩
    else
      ⟨0, [], [], []⟩

/-! ## Helper lemmas -/

/-- The fetch invocations of `extract_debug_dump_file` are exactly those of the
`try` body: the `except` clause adds a log line but makes no call. -/
lemma extract_calls_eq_body (tid : Option String) (fp : Option String)
    (fetch : FetchOutcome) (dur : Nat) :
    (extract_debug_dump_file tid fp fetch dur).fetchCalls
      = (extract_body tid fp fetch dur).2.2 := by
  unfold extract_debug_dump_file
  rcases h : extract_body tid fp fetch dur with ⟨eo, logs, calls⟩
  cases eo <;> rfl

/-- On an accepted input (nonempty directory and filename components, task id
not the sentinel) the body makes exactly one fetch invocation, with the split
path components and the fixed timeout. -/
lemma extract_body_calls_accepted (tid : Option String) (fp : String)
    (fetch : FetchOutcome) (dur : Nat)
    (hd : dirname fp ≠ "") (hf : basename fp ≠ "")
    (ht : tid ≠ some BMCDebugDumpExtractor.INVALID_TASK_ID) :
    (extract_body tid (some fp) fetch dur).2.2
      = [⟨tid, basename fp, dirname fp, 360⟩] := by
  simp only [extract_body, parse_file_path]
  rw [if_neg (by simp [hd, hf]), if_neg ht]
  cases fetch with
  | raise e => rfl
  | ret r emsg => by_cases hr : r = 0 <;> simp [hr]

/-- When the task id is the sentinel, the body makes no fetch invocation,
whatever the filepath. -/
lemma extract_body_calls_sentinel (fp : Option String)
    (fetch : FetchOutcome) (dur : Nat) :
    (extract_body (some BMCDebugDumpExtractor.INVALID_TASK_ID) fp fetch dur).2.2
      = [] := by
  cases fp with
  | none => rfl
  | some p =>
    by_cases h : dirname p = "" ∨ basename p = "" <;>
      simp [extract_body, parse_file_path, h]

/-! ## Claims -/

/-- C1, counterexample: the claim says that whenever the external start-dump
call fails, the sentinel is printed.  But a well-formed failure return
`(1, ("t7", "boom"))` assigns the task id by tuple unpacking before the
status test, so the printed value is "t7", not the sentinel. -/
theorem c1_counterexample :
    (1 : Int) ≠ 0 ∧
    (trigger_debug_dump (TriggerOutcome.ret 1 "t7" "boom")).stdout
      ≠ [BMCDebugDumpExtractor.INVALID_TASK_ID] ∧
    (trigger_debug_dump (TriggerOutcome.ret 1 "t7" "boom")).stdout = ["t7"] := by
  decide

/-- C1, amended: the sentinel is printed exactly when the external start-dump
call raises; on a well-formed return — whatever the status code — the
returned task id is what gets printed. -/
theorem c1_trigger_printed_value (e : String) (r : Int) (tid emsg : String) :
    (trigger_debug_dump (TriggerOutcome.raise e)).stdout
      = [BMCDebugDumpExtractor.INVALID_TASK_ID] ∧
    (trigger_debug_dump (TriggerOutcome.ret r tid emsg)).stdout = [tid] := by
  refine ⟨rfl, ?_⟩
  by_cases hr : r = 0 <;> simp [trigger_debug_dump, hr]

/-- C2, counterexample: the claim says the exit code is 0 even when
platform-object construction raises.  But `BMCDebugDumpExtractor()` is called
outside any `try` block, so the exception propagates uncaught and the
interpreter exits with code 1. -/
theorem c2_counterexample :
    (script_process (ConstructOutcome.raise "platform error") "t" none none
        (TriggerOutcome.ret 0 "t1" "") (FetchOutcome.ret 0 "") 0).exitCode ≠ 0 := by
  decide

/-- C2, amended: once the extractor is constructed successfully, the exit code
is 0 for every mode and every outcome of the external trigger and fetch
calls; only an exception during construction yields a non-zero exit code. -/
theorem c2_exit_code_zero_when_constructed (mode : String) (tid fp : Option String)
    (trig : TriggerOutcome) (fetch : FetchOutcome) (dur : Nat) :
    (script_process ConstructOutcome.ok mode tid fp trig fetch dur).exitCode = 0 := by
  simp only [script_process]
  split
  · rfl
  · split <;> rfl

/-- C3, counterexample: the claim says an absent task id is rejected before
the external fetch call.  But the script only compares against the sentinel
string, and `None == '-1'` is false in Python, so with an absent task id and
a valid path the fetch operation is invoked (with task id `None`). -/
theorem c3_counterexample :
    (extract_debug_dump_file none (some "/a/b") (FetchOutcome.ret 0 "ok") 5).fetchCalls
        = [⟨none, "b", "/a", 360⟩] ∧
    (extract_debug_dump_file none (some "/a/b") (FetchOutcome.ret 0 "ok") 5).fetchCalls
        ≠ [] := by
  decide

/-- C3, amended: in collect mode, when the task id equals the sentinel the
external fetch operation is never invoked, whatever the filepath; an absent
task id, by contrast, is passed through to the fetch operation. -/
theorem c3_sentinel_blocks_fetch (fp : Option String) (fetch : FetchOutcome)
    (dur : Nat) :
    (extract_debug_dump_file (some BMCDebugDumpExtractor.INVALID_TASK_ID)
        fp fetch dur).fetchCalls = [] :=
  (extract_calls_eq_body _ fp fetch dur).trans
    (extract_body_calls_sentinel fp fetch dur)

/-- C4: on every accepted input (nonempty directory and filename components
of the path, task id not the sentinel) the external fetch operation is called
exactly once, with the basename component as filename, the dirname component
as directory, and the fixed timeout 360, regardless of the task id, the path
and the fetch outcome. -/
theorem c4_fetch_arguments (tid : Option String) (fp : String)
    (fetch : FetchOutcome) (dur : Nat)
    (hd : dirname fp ≠ "") (hf : basename fp ≠ "")
    (ht : tid ≠ some BMCDebugDumpExtractor.INVALID_TASK_ID) :
    (extract_debug_dump_file tid (some fp) fetch dur).fetchCalls
      = [⟨tid, basename fp, dirname fp, 360⟩] :=
  (extract_calls_eq_body tid (some fp) fetch dur).trans
    (extract_body_calls_accepted tid fp fetch dur hd hf ht)

/-- C4, witness at a concrete accepted input. -/
theorem c4_fetch_arguments_witness :
    dirname "/a/b.txt" ≠ "" ∧ basename "/a/b.txt" ≠ "" ∧
    (some "42" : Option String) ≠ some BMCDebugDumpExtractor.INVALID_TASK_ID ∧
    (extract_debug_dump_file (some "42") (some "/a/b.txt")
        (FetchOutcome.raise "x") 7).fetchCalls
      = [⟨some "42", "b.txt", "/a", 360⟩] :=
  ⟨by decide, by decide, by decide, by
    rw [c4_fetch_arguments (some "42") "/a/b.txt" (FetchOutcome.raise "x") 7
          (by decide) (by decide) (by decide)]
    decide⟩

/-- C5: a path whose directory component or filename component is empty is
rejected and the external fetch operation is not invoked. -/
theorem c5_invalid_path_blocks_fetch (tid : Option String) (fp : String)
    (fetch : FetchOutcome) (dur : Nat)
    (h : dirname fp = "" ∨ basename fp = "") :
    (extract_debug_dump_file tid (some fp) fetch dur).fetchCalls = [] := by
  rw [extract_calls_eq_body]
  rcases h with h | h <;> simp [extract_body, parse_file_path, h]

/-- C5, witness: a bare filename has an empty directory component. -/
theorem c5_invalid_path_blocks_fetch_witness :
    (dirname "file.txt" = "" ∨ basename "file.txt" = "") ∧
    (extract_debug_dump_file (some "42") (some "file.txt")
        (FetchOutcome.ret 0 "") 0).fetchCalls = [] :=
  ⟨by decide,
   c5_invalid_path_blocks_fetch (some "42") "file.txt" (FetchOutcome.ret 0 "") 0
     (by decide)⟩

/-- C6: when the external start-dump call returns status 0 with a task id,
that exact task id string is printed to standard output. -/
theorem c6_success_prints_task_id (tid emsg : String) :
    (trigger_debug_dump (TriggerOutcome.ret 0 tid emsg)).stdout = [tid] := by
  simp [trigger_debug_dump]

/-- C7: collect mode never propagates an exception: for every task id, every
filepath (including an absent one) and every fetch outcome it returns
normally, and whenever the body raised, the error is logged as the final
syslog line. -/
theorem c7_collect_no_propagation (tid fp : Option String)
    (fetch : FetchOutcome) (dur : Nat) :
    (extract_debug_dump_file tid fp fetch dur).propagatedExn = none ∧
    ∀ e logs calls, extract_body tid fp fetch dur = (some e, logs, calls) →
      (extract_debug_dump_file tid fp fetch dur).logs
        = logs ++ [⟨Sev.err, "Failed to collect BMC debug log dump - " ++ e⟩] := by
  constructor
  · unfold extract_debug_dump_file
    rcases h : extract_body tid fp fetch dur with ⟨eo, logs, calls⟩
    cases eo <;> rfl
  · intro e logs calls h
    unfold extract_debug_dump_file
    rw [h]

/-- C7, witness at a concrete input whose fetch call raises. -/
theorem c7_collect_no_propagation_witness :
    (extract_debug_dump_file (some "7") (some "/a/b")
        (FetchOutcome.raise "boom") 5).propagatedExn = none ∧
    (extract_debug_dump_file (some "7") (some "/a/b")
        (FetchOutcome.raise "boom") 5).logs
      = [⟨Sev.info, "Collecting BMC debug log dump"⟩]
          ++ [⟨Sev.err, "Failed to collect BMC debug log dump - " ++ "boom"⟩] :=
  ⟨(c7_collect_no_propagation (some "7") (some "/a/b")
      (FetchOutcome.raise "boom") 5).1,
   (c7_collect_no_propagation (some "7") (some "/a/b")
      (FetchOutcome.raise "boom") 5).2
     "boom" [⟨Sev.info, "Collecting BMC debug log dump"⟩]
     [⟨some "7", "b", "/a", 360⟩] (by decide)⟩

/-- C8: trigger mode prints exactly one line to standard output on every
path, and collect mode prints nothing on any path. -/
theorem c8_stdout_discipline (call : TriggerOutcome) (tid fp : Option String)
    (fetch : FetchOutcome) (dur : Nat) :
    (trigger_debug_dump call).stdout.length = 1 ∧
    (extract_debug_dump_file tid fp fetch dur).stdout = [] := by
  constructor
  · cases call with
    | raise e => rfl
    | ret r t m => by_cases hr : r = 0 <;> simp [trigger_debug_dump, hr]
  · unfold extract_debug_dump_file
    rcases h : extract_body tid fp fetch dur with ⟨eo, logs, calls⟩
    cases eo <;> rfl

/-- C9: the sentinel invalid task identifier is the string "-1"; it is the
value compared against in collect mode (blocking the fetch call) and the
value printed by trigger mode when the external call raised before any
identifier was obtained. -/
theorem c9_sentinel_value :
    BMCDebugDumpExtractor.INVALID_TASK_ID = "-1" ∧
    (∀ e, (trigger_debug_dump (TriggerOutcome.raise e)).stdout
        = [BMCDebugDumpExtractor.INVALID_TASK_ID]) ∧
    ∀ fp fetch dur,
      (extract_debug_dump_file (some "-1") fp fetch dur).fetchCalls = [] := by
  refine ⟨rfl, fun e => rfl, fun fp fetch dur => ?_⟩
  exact (extract_calls_eq_body _ fp fetch dur).trans
    (extract_body_calls_sentinel fp fetch dur)

/-- C10: the filepath is validated before the task identifier: when both are
invalid, the run consists of exactly one error syslog line reporting the
invalid filepath, no output, no fetch call and no propagated exception — the
task-identifier check is never reached. -/
theorem c10_filepath_checked_first (fp : String) (fetch : FetchOutcome)
    (dur : Nat) (h : dirname fp = "" ∨ basename fp = "") :
    extract_debug_dump_file (some BMCDebugDumpExtractor.INVALID_TASK_ID)
        (some fp) fetch dur
      = ⟨[⟨Sev.err, "Failed to collect BMC debug log dump - "
            ++ ("Invalid given filepath: " ++ fp)⟩], [], [], none⟩ := by
  rcases h with h | h <;>
    simp [extract_debug_dump_file, extract_body, parse_file_path, h]

/-- C10, witness: a bare filename together with the sentinel task id. -/
theorem c10_filepath_checked_first_witness :
    (dirname "file.txt" = "" ∨ basename "file.txt" = "") ∧
    extract_debug_dump_file (some BMCDebugDumpExtractor.INVALID_TASK_ID)
        (some "file.txt") (FetchOutcome.ret 0 "") 0
      = ⟨[⟨Sev.err, "Failed to collect BMC debug log dump - "
            ++ ("Invalid given filepath: " ++ "file.txt")⟩], [], [], none⟩ :=
  ⟨by decide,
   c10_filepath_checked_first "file.txt" (FetchOutcome.ret 0 "") 0 (by decide)⟩

end BmcTechsupport
